import Mathlib

/-!
Verification of the multi-chain RPC connection manager of the talisman
repository: the `ChainConnector` socket pool and request multiplexer
(`packages/chain-connector/src/ChainConnector.ts`) and the EVM-side
health-aware endpoint selection helpers
(`packages/chain-connector-evm/src/util.ts`).

The TypeScript is embedded shallowly:

* The connector's three private maps (`#socketConnections`,
  `#socketKeepAliveIntervals`, `#socketUsers`) become function-typed fields
  of `ConnectorState`.  A `WsProvider` object is represented by the numeric
  tag handed out by `nextTransportId` when `new WsProvider(...)` runs, and a
  timer returned by `setInterval` by the tag from `nextTimerId`.  The fields
  `liveTransports` / `liveTimers` record which transports / timers have been
  constructed and not yet disconnected / cleared, and `wsCtorCalls` logs the
  endpoint list passed to each `WsProvider` constructor call.
* Effects are explicit: each method returns `Except ConnErr _` paired with
  the successor state.  A thrown JavaScript exception is an `Except.error`.
* External collaborators are oracles passed in as arguments: the chaindata
  directory is `getChain : ChainId → Option Chain`, the outcome of a
  transport call (`ws.send`, `ws.subscribe`, `ws.unsubscribe`) is an
  `Except Unit _` argument, and each `Math.random()` call is modelled by the
  numerator `k` of the double `k / 2^53` it returns (`k < 2^53`), so
  `Math.trunc(Math.random() * 10^8)` is the exact value `k * 10^8 / 2^53`.
* The detached keep-alive IIFE scheduled by `connectChainSocket` is
  modelled by the separate step `installKeepAlive`, its continuation after
  `await isReady` resolves.
-/

abbrev ChainId := String

abbrev SocketUserId := Nat

/-- One entry of `chain.rpcs` as delivered by the chaindata provider: an
endpoint URL together with its health flag. -/
structure Rpc where
  url : String
  isHealthy : Bool
deriving DecidableEq, Repr

/-- The part of a chaindata `Chain` record the connector consumes: its list
of candidate RPC endpoints. -/
structure Chain where
  rpcs : List Rpc
deriving DecidableEq, Repr

/-- Errors thrown by the connector, one constructor per `throw` site (plus
`rngDiverges` for the case where the random-id loop never finds a free id,
and the transport-call rethrow sites of `send`/`subscribe`/`unsubscribe`). -/
inductive ConnErr where
  /-- Thrown as `Chain ${chainId} not found in store` -/
  | chainNotFound
  /-- Thrown as `No healthy RPCs available for chain ${chainId}` -/
  | noHealthyEndpoints
  /-- Models `new WsProvider(rpcs, autoConnectMs)` throwing -/
  | transportCtorFailure
  /-- the `getExclusiveRandomId` generate-and-check loop never terminated -/
  | rngDiverges
  /-- Thrown by `removeSocketUser` when the user id is not in the list -/
  | userNotInList
  /-- TypeError from `this.#socketUsers[chainId].indexOf` when the map has
  no entry for the chain -/
  | noUsersEntry
  /-- Models `ws.send` rejecting, rethrown by `send` -/
  | transportSendFailure
  /-- Models `ws.subscribe` rejecting, rethrown by `subscribe` -/
  | transportSubscribeFailure
  /-- Models `ws.unsubscribe` rejecting, rethrown by the unsubscribe closure -/
  | transportUnsubscribeFailure
deriving DecidableEq, Repr

/-- The mutable state of a `ChainConnector` instance, together with the
bookkeeping fields (`liveTransports`, `liveTimers`, `wsCtorCalls`, id
counters) that record which external resources exist. -/
structure ConnectorState where
  socketConnections : ChainId → Option Nat
  socketKeepAliveIntervals : ChainId → Option Nat
  socketUsers : ChainId → Option (List SocketUserId)
  liveTransports : List (ChainId × Nat)
  liveTimers : List Nat
  nextTransportId : Nat
  nextTimerId : Nat
  wsCtorCalls : List (ChainId × List String)

/-- The state of a freshly constructed `ChainConnector`: all three maps
empty, no live resources. -/
def initState : ConnectorState where
  socketConnections := fun _ => none
  socketKeepAliveIntervals := fun _ => none
  socketUsers := fun _ => none
  liveTransports := []
  liveTimers := []
  nextTransportId := 0
  nextTimerId := 0
  wsCtorCalls := []

/-- Point update of a function-typed map field. -/
def setMap {α : Type} (m : ChainId → Option α) (k : ChainId) (v : Option α) :
    ChainId → Option α :=
  fun c => if c = k then v else m c

/-- Embeds `getRandomId`: `Math.trunc(Math.random() * Math.pow(10, 8))`, where the
`Math.random()` call returned the double `k / 2^53` (we model the call by
its numerator `k`). -/
def getRandomId (k : Nat) : Nat :=
  k * 10 ^ 8 / 2 ^ 53

/-- Embeds `getExclusiveRandomId`: keep drawing random ids until one is not in the
exclude list.  `ks` is the stream of `Math.random()` numerators the loop
consumes; an exhausted stream (`none`) models a loop that never finds a free
id. -/
def getExclusiveRandomId : List Nat → List SocketUserId → Option SocketUserId
  | [], _ => none
  | k :: ks, exclude =>
    let id := getRandomId k
    if id ∈ exclude then getExclusiveRandomId ks exclude else some id

/-- Embeds `addSocketUser`: initialise `#socketUsers[chainId]` to `[]` when absent,
draw a fresh id excluding the per-chain current users, and push it. -/
def addSocketUser (rand : List Nat) (st : ConnectorState) (chainId : ChainId) :
    Option SocketUserId × ConnectorState :=
  let users := (st.socketUsers chainId).getD []
  match getExclusiveRandomId rand users with
  | none => (none, { st with socketUsers := setMap st.socketUsers chainId (some users) })
  | some socketUserId =>
    (some socketUserId,
      { st with socketUsers := setMap st.socketUsers chainId (some (users ++ [socketUserId])) })

/-- The `.filter(({ isHealthy }) => isHealthy).map(({ url }) => url)` list of
`connectChainSocket`. -/
def healthyRpcs (rpcs : List Rpc) : List String :=
  (rpcs.filter (fun r => r.isHealthy)).map (fun r => r.url)

/-- The `.filter(({ isHealthy }) => !isHealthy).map(({ url }) => url)` list of
`connectChainSocket`. -/
def unhealthyRpcs (rpcs : List Rpc) : List String :=
  (rpcs.filter (fun r => !r.isHealthy)).map (fun r => r.url)

/-- The list `rpcs = [...healthyRpcs, ...unhealthyRpcs]`: the endpoint list
handed to the `WsProvider` constructor. -/
def orderedRpcUrls (rpcs : List Rpc) : List String :=
  healthyRpcs rpcs ++ unhealthyRpcs rpcs

/-- The same ordering on the `Rpc` records themselves (healthy block first,
then unhealthy block); `orderedRpcUrls` is its image under `.url`. -/
def sortedRpcs (rpcs : List Rpc) : List Rpc :=
  rpcs.filter (fun r => r.isHealthy) ++ rpcs.filter (fun r => !r.isHealthy)

/-- Embeds `connectChainSocket`: resolve the chain, allocate a socket user id,
return the existing provider when one is cached, otherwise build the ordered
endpoint list and construct a new `WsProvider` (throwing when the list is
empty, `wsCtorFails` modelling a throwing constructor).  Returns the socket
user id and the provider. -/
def connectChainSocket (getChain : ChainId → Option Chain) (rand : List Nat)
    (wsCtorFails : Bool) (st : ConnectorState) (chainId : ChainId) :
    Except ConnErr (SocketUserId × Nat) × ConnectorState :=
  match getChain chainId with
  | none => (.error .chainNotFound, st)
  | some chain =>
    match addSocketUser rand st chainId with
    | (none, st₁) => (.error .rngDiverges, st₁)
    | (some socketUserId, st₁) =>
      match st₁.socketConnections chainId with
      | some ws => (.ok (socketUserId, ws), st₁)
      | none =>
        let rpcs := orderedRpcUrls chain.rpcs
        if rpcs.isEmpty then (.error .noHealthyEndpoints, st₁)
        else if wsCtorFails then (.error .transportCtorFailure, st₁)
        else
          let ws := st₁.nextTransportId
          (.ok (socketUserId, ws),
            { st₁ with
              socketConnections := setMap st₁.socketConnections chainId (some ws)
              liveTransports := (chainId, ws) :: st₁.liveTransports
              nextTransportId := ws + 1
              wsCtorCalls := st₁.wsCtorCalls ++ [(chainId, rpcs)] })

/-- The continuation of the detached keep-alive IIFE once `isReady`
resolves: bail out when the connection is gone, otherwise clear any previous
interval and install a new one. -/
def installKeepAlive (st : ConnectorState) (chainId : ChainId) : ConnectorState :=
  match st.socketConnections chainId with
  | none => st
  | some _ =>
    let cleared :=
      match st.socketKeepAliveIntervals chainId with
      | some t => st.liveTimers.erase t
      | none => st.liveTimers
    { st with
      socketKeepAliveIntervals := setMap st.socketKeepAliveIntervals chainId (some st.nextTimerId)
      liveTimers := st.nextTimerId :: cleared
      nextTimerId := st.nextTimerId + 1 }

/-- Embeds `removeSocketUser`: `indexOf` on a missing map entry is a TypeError;
`indexOf === -1` throws the "user not in list" error; otherwise `splice`
removes the first occurrence. -/
def removeSocketUser (st : ConnectorState) (chainId : ChainId)
    (socketUserId : SocketUserId) : Except ConnErr Unit × ConnectorState :=
  match st.socketUsers chainId with
  | none => (.error .noUsersEntry, st)
  | some users =>
    if socketUserId ∈ users then
      (.ok (), { st with socketUsers := setMap st.socketUsers chainId (some (users.erase socketUserId)) })
    else (.error .userNotInList, st)

/-- Embeds `disconnectChainSocket`: remove the user; return early while users
remain; warn-and-return when no connection is cached; otherwise disconnect
the provider, delete it, and clear and delete the keep-alive interval. -/
def disconnectChainSocket (st : ConnectorState) (chainId : ChainId)
    (socketUserId : SocketUserId) : Except ConnErr Unit × ConnectorState :=
  match removeSocketUser st chainId socketUserId with
  | (.error e, st₁) => (.error e, st₁)
  | (.ok _, st₁) =>
    match st₁.socketUsers chainId with
    | some (_ :: _) => (.ok (), st₁)
    | _ =>
      match st₁.socketConnections chainId with
      | none => (.ok (), st₁)
      | some ws =>
        let st₂ :=
          { st₁ with
            liveTransports := st₁.liveTransports.erase (chainId, ws)
            socketConnections := setMap st₁.socketConnections chainId none }
        let st₃ :=
          match st₁.socketKeepAliveIntervals chainId with
          | some t =>
            { st₂ with
              liveTimers := st₂.liveTimers.erase t
              socketKeepAliveIntervals := setMap st₂.socketKeepAliveIntervals chainId none }
          | none =>
            { st₂ with
              socketKeepAliveIntervals := setMap st₂.socketKeepAliveIntervals chainId none }
        (.ok (), st₃)

/-- One observable operation on the pool: an `acquire`
(`connectChainSocket`, with its random stream and constructor outcome), a
`release` (`disconnectChainSocket`), or the keep-alive IIFE resuming. -/
inductive PoolOp where
  | acquire (chainId : ChainId) (rand : List Nat) (wsCtorFails : Bool)
  | release (chainId : ChainId) (socketUserId : SocketUserId)
  | keepAliveReady (chainId : ChainId)

/-- The state transition of one `PoolOp`. -/
def stepOp (getChain : ChainId → Option Chain) (st : ConnectorState) :
    PoolOp → ConnectorState
  | .acquire chainId rand wsCtorFails =>
    (connectChainSocket getChain rand wsCtorFails st chainId).2
  | .release chainId socketUserId => (disconnectChainSocket st chainId socketUserId).2
  | .keepAliveReady chainId => installKeepAlive st chainId

/-- Run a sequence of pool operations. -/
def runOps (getChain : ChainId → Option Chain) : List PoolOp → ConnectorState → ConnectorState
  | [], st => st
  | op :: ops, st => runOps getChain ops (stepOp getChain st op)

/-- The number of constructed-and-not-yet-disconnected transports for one
chain. -/
def liveTransportCount (st : ConnectorState) (chainId : ChainId) : Nat :=
  (st.liveTransports.filter (fun p => p.1 == chainId)).length

/-- An observable release performed by the request multiplexer: one call of
`disconnectChainSocket chainId socketUserId`. -/
inductive MuxEvent where
  | released (chainId : ChainId) (socketUserId : SocketUserId)
deriving DecidableEq, Repr

/-- Embeds `ChainConnector.send`: acquire a socket user, wait for readiness (a pure
suspension, no state effect), forward the call (`sendResult` is the
answer of the transport), and release the user on both the success and the
failure path before returning or rethrowing.  The event list records each
`disconnectChainSocket` call made. -/
def sendModel {α : Type} (getChain : ChainId → Option Chain) (rand : List Nat)
    (wsCtorFails : Bool) (st : ConnectorState) (chainId : ChainId)
    (sendResult : Except Unit α) :
    Except ConnErr α × ConnectorState × List MuxEvent :=
  match connectChainSocket getChain rand wsCtorFails st chainId with
  | (.error e, st₁) => (.error e, st₁, [])
  | (.ok (socketUserId, _ws), st₁) =>
    match sendResult with
    | .error _ =>
      match disconnectChainSocket st₁ chainId socketUserId with
      | (.error e, st₂) => (.error e, st₂, [.released chainId socketUserId])
      | (.ok _, st₂) => (.error .transportSendFailure, st₂, [.released chainId socketUserId])
    | .ok response =>
      match disconnectChainSocket st₁ chainId socketUserId with
      | (.error e, st₂) => (.error e, st₂, [.released chainId socketUserId])
      | (.ok _, st₂) => (.ok response, st₂, [.released chainId socketUserId])

/-- Embeds `ChainConnector.subscribe` up to returning the unsubscribe closure:
acquire a socket user, wait for readiness, issue the subscribe call
(`subscribeResult` is the answer of the transport, a subscription id on
success).  On failure release the user and rethrow; on success return the
data the unsubscribe closure captures (the socket user id and subscription
id) without releasing anything. -/
def subscribeModel (getChain : ChainId → Option Chain) (rand : List Nat)
    (wsCtorFails : Bool) (st : ConnectorState) (chainId : ChainId)
    (subscribeResult : Except Unit Nat) :
    Except ConnErr (SocketUserId × Nat) × ConnectorState × List MuxEvent :=
  match connectChainSocket getChain rand wsCtorFails st chainId with
  | (.error e, st₁) => (.error e, st₁, [])
  | (.ok (socketUserId, _ws), st₁) =>
    match subscribeResult with
    | .error _ =>
      match disconnectChainSocket st₁ chainId socketUserId with
      | (.error e, st₂) => (.error e, st₂, [.released chainId socketUserId])
      | (.ok _, st₂) =>
        (.error .transportSubscribeFailure, st₂, [.released chainId socketUserId])
    | .ok subscriptionId => (.ok (socketUserId, subscriptionId), st₁, [])

/-- The unsubscribe closure returned by `subscribe`: forward the
unsubscribe call (`unsubscribeResult` is the answer of the transport), then
release the captured socket user.  A rejected `ws.unsubscribe` propagates
before the release is reached. -/
def unsubscribeModel (st : ConnectorState) (chainId : ChainId)
    (socketUserId : SocketUserId) (unsubscribeResult : Except Unit Unit) :
    Except ConnErr Unit × ConnectorState × List MuxEvent :=
  match unsubscribeResult with
  | .error _ => (.error .transportUnsubscribeFailure, st, [])
  | .ok _ =>
    match disconnectChainSocket st chainId socketUserId with
    | (.error e, st₂) => (.error e, st₂, [.released chainId socketUserId])
    | (.ok _, st₂) => (.ok (), st₂, [.released chainId socketUserId])

/-! EVM-side health-aware endpoint selection
(`packages/chain-connector-evm/src/util.ts`). -/

/-- The observable outcome of probing one endpoint with `eth_chainId`: a
reply arriving before `RPC_HEALTHCHECK_TIMEOUT` whose payload parses (via
`parseInt(·, 16)`) to the carried value (`none` models `NaN`), or any
exception — network error, timeout (`throwAfter` winning the race), or a
rejected send. -/
inductive ProbeOutcome where
  | reply (parsed : Option Int)
  | failure
deriving DecidableEq, Repr

/-- Embeds `isHealthyRpc`: healthy exactly when the probe replies in time and
`parseInt(rpcChainId, 16) === chainId`; every exception is caught, logged
and turned into `false`. -/
def isHealthyRpc (net : String → ProbeOutcome) (url : String) (chainId : Int) : Bool :=
  match net url with
  | .reply parsed => parsed == some chainId
  | .failure => false

/-- Embeds `getHealthyRpc`: try the candidate URLs in order, returning the first
healthy one, `none` (null) when every candidate fails. -/
def getHealthyRpc (net : String → ProbeOutcome) : List String → Int → Option String
  | [], _ => none
  | url :: urls, chainId =>
    if isHealthyRpc net url chainId then some url else getHealthyRpc net urls chainId

/-- The part of an error object `isUnhealthyRpcError` consumes: its
`reason` field (`none` models an absent/undefined field). -/
structure RpcError where
  reason : Option String
deriving DecidableEq, Repr

/-- JavaScript `Array.prototype.includes` applied to a possibly undefined
value: `undefined` is never an element of a list of strings. -/
def jsIncludes (l : List String) : Option String → Bool
  | some s => l.contains s
  | none => false

/-- Embeds `isUnhealthyRpcError`: errors whose `reason` is on the fixed allow-list
`["processing response error"]` do not indicate endpoint unhealthiness;
every other error does. -/
def isUnhealthyRpcError (err : RpcError) : Bool :=
  if jsIncludes ["processing response error"] err.reason then false
  else true

/-! Abbreviations for the two state shapes `connectChainSocket` produces,
and concrete scenario directories used to instantiate theorems. -/

/-- The state after `addSocketUser` pushed a fresh id for `chainId`. -/
def pushUser (st : ConnectorState) (chainId : ChainId) (u : SocketUserId) : ConnectorState :=
  { st with
    socketUsers := setMap st.socketUsers chainId (some ((st.socketUsers chainId).getD [] ++ [u])) }

/-- The state after `addSocketUser` merely initialised the per-chain (empty)
user list and the random-id loop diverged. -/
def initUsers (st : ConnectorState) (chainId : ChainId) : ConnectorState :=
  { st with
    socketUsers := setMap st.socketUsers chainId (some ((st.socketUsers chainId).getD [])) }

/-- The state change of `new WsProvider(urls, autoConnectMs)` being stored
under `chainId`. -/
def constructConn (st : ConnectorState) (chainId : ChainId) (urls : List String) : ConnectorState :=
  { st with
    socketConnections := setMap st.socketConnections chainId (some st.nextTransportId)
    liveTransports := (chainId, st.nextTransportId) :: st.liveTransports
    nextTransportId := st.nextTransportId + 1
    wsCtorCalls := st.wsCtorCalls ++ [(chainId, urls)] }

/-- The pool invariant: for each chain the live transports are exactly the
one the connection map stores (none when the map has no entry). -/
def TransportInv (st : ConnectorState) : Prop :=
  ∀ chainId, st.liveTransports.filter (fun p => p.1 == chainId) =
    match st.socketConnections chainId with
    | some ws => [(chainId, ws)]
    | none => []

/-- A directory holding one chain, `polkadot`, with one healthy endpoint. -/
def dirHealthy : ChainId → Option Chain :=
  fun chainId => if chainId = "polkadot" then some ⟨[⟨"wss://rpc.example", true⟩]⟩ else none

/-- A directory holding one chain, `polkadot`, whose single endpoint is
flagged unhealthy. -/
def dirAllUnhealthy : ChainId → Option Chain :=
  fun chainId => if chainId = "polkadot" then some ⟨[⟨"wss://rpc.example", false⟩]⟩ else none

/-- A directory holding one chain, `polkadot`, with an empty endpoint
list. -/
def dirNoRpcs : ChainId → Option Chain :=
  fun chainId => if chainId = "polkadot" then some ⟨[]⟩ else none

/-! Helper lemmas. -/

@[simp]
theorem setMap_same {α : Type} (m : ChainId → Option α) (k : ChainId) (v : Option α) :
    setMap m k v k = v := by
  simp [setMap]

theorem setMap_ne {α : Type} (m : ChainId → Option α) (k c : ChainId) (v : Option α)
    (h : c ≠ k) : setMap m k v c = m c := by
  simp [setMap, h]

/-- A successful draw of the random-id loop is never in the exclude list
and comes from the supplied stream. -/
theorem getExclusiveRandomId_spec (ks : List Nat) (exclude : List SocketUserId)
    (id : SocketUserId) (h : getExclusiveRandomId ks exclude = some id) :
    id ∉ exclude ∧ ∃ k ∈ ks, id = getRandomId k := by
  induction ks with
  | nil => simp [getExclusiveRandomId] at h
  | cons k ks ih =>
    by_cases hk : getRandomId k ∈ exclude
    · simp only [getExclusiveRandomId, if_pos hk] at h
      obtain ⟨h1, k', hk', he⟩ := ih h
      exact ⟨h1, k', List.mem_cons_of_mem _ hk', he⟩
    · simp only [getExclusiveRandomId, if_neg hk] at h
      cases h
      exact ⟨hk, k, List.mem_cons_self _ _, rfl⟩

/-- Exhaustive case analysis of `connectChainSocket`: the six ways a call
can go, with the exact result and successor state of each. -/
theorem connectChainSocket_shape (getChain : ChainId → Option Chain) (rand : List Nat)
    (wsCtorFails : Bool) (st : ConnectorState) (chainId : ChainId) :
    (getChain chainId = none ∧
      connectChainSocket getChain rand wsCtorFails st chainId = (.error .chainNotFound, st))
    ∨ (∃ chain, getChain chainId = some chain ∧
        getExclusiveRandomId rand ((st.socketUsers chainId).getD []) = none ∧
        connectChainSocket getChain rand wsCtorFails st chainId =
          (.error .rngDiverges, initUsers st chainId))
    ∨ (∃ chain u ws, getChain chainId = some chain ∧
        getExclusiveRandomId rand ((st.socketUsers chainId).getD []) = some u ∧
        st.socketConnections chainId = some ws ∧
        connectChainSocket getChain rand wsCtorFails st chainId =
          (.ok (u, ws), pushUser st chainId u))
    ∨ (∃ chain u, getChain chainId = some chain ∧
        getExclusiveRandomId rand ((st.socketUsers chainId).getD []) = some u ∧
        st.socketConnections chainId = none ∧ orderedRpcUrls chain.rpcs = [] ∧
        connectChainSocket getChain rand wsCtorFails st chainId =
          (.error .noHealthyEndpoints, pushUser st chainId u))
    ∨ (∃ chain u, getChain chainId = some chain ∧
        getExclusiveRandomId rand ((st.socketUsers chainId).getD []) = some u ∧
        st.socketConnections chainId = none ∧ orderedRpcUrls chain.rpcs ≠ [] ∧
        wsCtorFails = true ∧
        connectChainSocket getChain rand wsCtorFails st chainId =
          (.error .transportCtorFailure, pushUser st chainId u))
    ∨ (∃ chain u, getChain chainId = some chain ∧
        getExclusiveRandomId rand ((st.socketUsers chainId).getD []) = some u ∧
        st.socketConnections chainId = none ∧ orderedRpcUrls chain.rpcs ≠ [] ∧
        wsCtorFails = false ∧
        connectChainSocket getChain rand wsCtorFails st chainId =
          (.ok (u, st.nextTransportId),
            constructConn (pushUser st chainId u) chainId (orderedRpcUrls chain.rpcs))) := by
  cases hg : getChain chainId with
  | none =>
    left
    exact ⟨rfl, by simp [connectChainSocket, hg]⟩
  | some chain =>
    cases hr : getExclusiveRandomId rand ((st.socketUsers chainId).getD []) with
    | none =>
      right; left
      exact ⟨chain, rfl, rfl, by simp [connectChainSocket, addSocketUser, hg, hr, initUsers]⟩
    | some u =>
      cases hc : st.socketConnections chainId with
      | some ws =>
        right; right; left
        refine ⟨chain, u, ws, rfl, rfl, rfl, ?_⟩
        simp [connectChainSocket, addSocketUser, hg, hr, hc, pushUser]
      | none =>
        by_cases he : orderedRpcUrls chain.rpcs = []
        · right; right; right; left
          refine ⟨chain, u, rfl, rfl, rfl, he, ?_⟩
          simp [connectChainSocket, addSocketUser, hg, hr, hc, he, pushUser]
        · cases hcf : wsCtorFails with
          | true =>
            right; right; right; right; left
            refine ⟨chain, u, rfl, rfl, rfl, he, rfl, ?_⟩
            simp [connectChainSocket, addSocketUser, hg, hr, hc, he, pushUser]
          | false =>
            right; right; right; right; right
            refine ⟨chain, u, rfl, rfl, rfl, he, rfl, ?_⟩
            simp [connectChainSocket, addSocketUser, hg, hr, hc, he, pushUser, constructConn]

/-- Release on a chain whose user map was never initialised: the TypeError
propagates and the state is untouched. -/
theorem disconnect_noUsersEntry (st : ConnectorState) (chainId : ChainId)
    (socketUserId : SocketUserId) (hu : st.socketUsers chainId = none) :
    disconnectChainSocket st chainId socketUserId = (.error .noUsersEntry, st) := by
  simp [disconnectChainSocket, removeSocketUser, hu]

/-- Release of a handle that is not in the per-chain user list: the
consistency error propagates and the state is untouched. -/
theorem disconnect_userNotInList (st : ConnectorState) (chainId : ChainId)
    (socketUserId : SocketUserId) (l : List SocketUserId)
    (hu : st.socketUsers chainId = some l) (hm : socketUserId ∉ l) :
    disconnectChainSocket st chainId socketUserId = (.error .userNotInList, st) := by
  simp [disconnectChainSocket, removeSocketUser, hu, hm]

/-- Release that leaves other users behind: only the user list changes. -/
theorem disconnect_keep (st : ConnectorState) (chainId : ChainId)
    (socketUserId : SocketUserId) (l : List SocketUserId) (v : SocketUserId)
    (rest : List SocketUserId) (hu : st.socketUsers chainId = some l)
    (hm : socketUserId ∈ l) (he : l.erase socketUserId = v :: rest) :
    disconnectChainSocket st chainId socketUserId =
      (.ok (), { st with
        socketUsers := setMap st.socketUsers chainId (some (l.erase socketUserId)) }) := by
  simp [disconnectChainSocket, removeSocketUser, hu, hm, he]

/-- Release of the last user while no connection is cached: the warning
no-op; only the (now empty) user list remains. -/
theorem disconnect_warn (st : ConnectorState) (chainId : ChainId)
    (socketUserId : SocketUserId) (l : List SocketUserId)
    (hu : st.socketUsers chainId = some l) (hm : socketUserId ∈ l)
    (he : l.erase socketUserId = []) (hc : st.socketConnections chainId = none) :
    disconnectChainSocket st chainId socketUserId =
      (.ok (), { st with socketUsers := setMap st.socketUsers chainId (some []) }) := by
  simp [disconnectChainSocket, removeSocketUser, hu, hm, he, hc]

/-- Release of the last user of a cached connection: the provider is
disconnected, its entry deleted, and the keep-alive interval cleared and
deleted. -/
theorem disconnect_teardown (st : ConnectorState) (chainId : ChainId)
    (socketUserId : SocketUserId) (l : List SocketUserId) (ws : Nat)
    (hu : st.socketUsers chainId = some l) (hm : socketUserId ∈ l)
    (he : l.erase socketUserId = []) (hc : st.socketConnections chainId = some ws) :
    disconnectChainSocket st chainId socketUserId =
      (.ok (), { st with
        socketUsers := setMap st.socketUsers chainId (some [])
        socketConnections := setMap st.socketConnections chainId none
        socketKeepAliveIntervals := setMap st.socketKeepAliveIntervals chainId none
        liveTransports := st.liveTransports.erase (chainId, ws)
        liveTimers := match st.socketKeepAliveIntervals chainId with
          | some t => st.liveTimers.erase t
          | none => st.liveTimers }) := by
  cases hk : st.socketKeepAliveIntervals chainId with
  | none => simp [disconnectChainSocket, removeSocketUser, hu, hm, he, hc, hk]
  | some t => simp [disconnectChainSocket, removeSocketUser, hu, hm, he, hc, hk]

/-- If the live-transport list filtered to one chain is exactly the one
pair, erasing that pair empties the per-chain filter and leaves every other
per-chain filter unchanged. -/
theorem filter_erase_single (l : List (ChainId × Nat)) (chainId : ChainId) (ws : Nat)
    (h : l.filter (fun p => p.1 == chainId) = [(chainId, ws)]) :
    (l.erase (chainId, ws)).filter (fun p => p.1 == chainId) = []
    ∧ ∀ c, c ≠ chainId →
        (l.erase (chainId, ws)).filter (fun p => p.1 == c) =
          l.filter (fun p => p.1 == c) := by
  induction l with
  | nil => simp at h
  | cons p t ih =>
    rw [List.filter_cons] at h
    cases hpc : (p.1 == chainId) with
    | true =>
      rw [hpc] at h
      simp only [if_true, List.cons.injEq] at h
      obtain ⟨hpe, hft⟩ := h
      subst hpe
      constructor
      · rw [List.erase_cons_head]
        exact hft
      · intro c hcne
        rw [List.erase_cons_head]
        have hne : (((chainId, ws) : ChainId × Nat).1 == c) = false := by
          simp only [beq_eq_false_iff_ne, ne_eq]
          exact fun h' => hcne (Eq.symm h')
        rw [List.filter_cons, hne]
        simp
    | false =>
      rw [hpc] at h
      simp only [Bool.false_eq_true, if_false] at h
      obtain ⟨ih1, ih2⟩ := ih h
      have hpne : p ≠ (chainId, ws) := by
        intro hpe
        subst hpe
        simp at hpc
      have herase : (p :: t).erase (chainId, ws) = p :: t.erase (chainId, ws) := by
        refine List.erase_cons_tail ?_
        simpa using hpne
      constructor
      · rw [herase, List.filter_cons, hpc]
        simpa using ih1
      · intro c hcne
        rw [herase, List.filter_cons, List.filter_cons]
        cases hpcc : (p.1 == c) <;> simp [ih2 c hcne]

/-- The invariant `TransportInv` only depends on the live-transport list and the
connection map. -/
theorem transportInv_congr (st st' : ConnectorState)
    (hl : st'.liveTransports = st.liveTransports)
    (hc : ∀ c, st'.socketConnections c = st.socketConnections c)
    (h : TransportInv st) : TransportInv st' := by
  intro c
  rw [hl, hc c]
  exact h c

/-- The fresh connector satisfies the invariant. -/
theorem transportInv_init : TransportInv initState := by
  intro c
  simp [initState, TransportInv]

/-- Every pool operation preserves the invariant. -/
theorem transportInv_step (getChain : ChainId → Option Chain) (st : ConnectorState)
    (op : PoolOp) (h : TransportInv st) : TransportInv (stepOp getChain st op) := by
  cases op with
  | acquire chainId rand wsCtorFails =>
    rcases connectChainSocket_shape getChain rand wsCtorFails st chainId with
      ⟨_, heq⟩ | ⟨chain, _, _, heq⟩ | ⟨chain, u, ws, _, _, _, heq⟩ |
      ⟨chain, u, _, _, _, _, heq⟩ | ⟨chain, u, _, _, _, _, _, heq⟩ |
      ⟨chain, u, hg, hr, hc, he, hcf, heq⟩
    · simpa [stepOp, heq] using h
    · simp only [stepOp, heq]
      exact transportInv_congr st _ rfl (fun _ => rfl) h
    · simp only [stepOp, heq]
      exact transportInv_congr st _ rfl (fun _ => rfl) h
    · simp only [stepOp, heq]
      exact transportInv_congr st _ rfl (fun _ => rfl) h
    · simp only [stepOp, heq]
      exact transportInv_congr st _ rfl (fun _ => rfl) h
    · simp only [stepOp, heq]
      intro c
      by_cases hcc : c = chainId
      · subst hcc
        have hnil : st.liveTransports.filter (fun p => p.1 == c) = [] := by
          have := h c
          rwa [hc] at this
        simp [constructConn, pushUser, List.filter_cons, hnil]
      · have hne : ((chainId, st.nextTransportId).1 == c) = false := by
          simp only [beq_eq_false_iff_ne, ne_eq]
          exact fun h' => hcc (Eq.symm h')
        have := h c
        simp only [constructConn, pushUser, List.filter_cons, hne, setMap]
        simpa [hcc] using this
  | release chainId socketUserId =>
    cases hu : st.socketUsers chainId with
    | none => simpa [stepOp, disconnect_noUsersEntry st chainId socketUserId hu] using h
    | some l =>
      by_cases hm : socketUserId ∈ l
      · cases he : l.erase socketUserId with
        | cons v rest =>
          simp only [stepOp, disconnect_keep st chainId socketUserId l v rest hu hm he]
          exact transportInv_congr st _ rfl (fun _ => rfl) h
        | nil =>
          cases hc : st.socketConnections chainId with
          | none =>
            simp only [stepOp, disconnect_warn st chainId socketUserId l hu hm he hc]
            exact transportInv_congr st _ rfl (fun _ => rfl) h
          | some ws =>
            simp only [stepOp, disconnect_teardown st chainId socketUserId l ws hu hm he hc]
            intro c
            have hsingle : st.liveTransports.filter (fun p => p.1 == chainId) = [(chainId, ws)] := by
              have := h chainId
              rwa [hc] at this
            obtain ⟨h1, h2⟩ := filter_erase_single st.liveTransports chainId ws hsingle
            by_cases hcc : c = chainId
            · subst hcc
              simp [h1]
            · have := h c
              simp only [setMap_ne _ _ _ _ hcc, h2 c hcc]
              exact this
      · simpa [stepOp, disconnect_userNotInList st chainId socketUserId l hu hm] using h
  | keepAliveReady chainId =>
    cases hc : st.socketConnections chainId with
    | none => simpa [stepOp, installKeepAlive, hc] using h
    | some ws =>
      refine transportInv_congr st _ ?_ (fun c => ?_) h
      · simp [stepOp, installKeepAlive, hc]
      · simp [stepOp, installKeepAlive, hc]

/-- The invariant holds after any run from any invariant state. -/
theorem transportInv_runOps (getChain : ChainId → Option Chain) (ops : List PoolOp)
    (st : ConnectorState) (h : TransportInv st) : TransportInv (runOps getChain ops st) := by
  induction ops generalizing st with
  | nil => exact h
  | cons op ops ih => exact ih _ (transportInv_step getChain st op h)

/-- The id `getRandomId` draws from a `Math.random()` numerator below `2^53` lies below
`10^8`. -/
theorem getRandomId_lt (k : Nat) (h : k < 2 ^ 53) : getRandomId k < 10 ^ 8 := by
  unfold getRandomId
  exact Nat.div_lt_of_lt_mul (by omega)

/-- Erasing a freshly appended element recovers the original list. -/
theorem erase_append_last (l : List SocketUserId) (u : SocketUserId) (h : u ∉ l) :
    (l ++ [u]).erase u = l := by
  rw [List.erase_append_right _ (by simpa using h), List.erase_cons_head]
  simp

/-- A successful `connectChainSocket` appended a fresh user id to the
per-chain user list (fresh: it was not there before). -/
theorem connect_ok_users (getChain : ChainId → Option Chain) (rand : List Nat)
    (wsCtorFails : Bool) (st : ConnectorState) (chainId : ChainId)
    (u ws : Nat) (st₁ : ConnectorState)
    (hp : connectChainSocket getChain rand wsCtorFails st chainId = (.ok (u, ws), st₁)) :
    st₁.socketUsers chainId = some ((st.socketUsers chainId).getD [] ++ [u])
    ∧ u ∉ (st.socketUsers chainId).getD []
    ∧ getExclusiveRandomId rand ((st.socketUsers chainId).getD []) = some u := by
  rcases connectChainSocket_shape getChain rand wsCtorFails st chainId with
    ⟨_, heq⟩ | ⟨chain, _, _, heq⟩ | ⟨chain, u', ws', _, hr, _, heq⟩ |
    ⟨chain, u', _, _, _, _, heq⟩ | ⟨chain, u', _, _, _, _, _, heq⟩ |
    ⟨chain, u', hg, hr, hc, he, hcf, heq⟩
  · rw [heq] at hp; simp at hp
  · rw [heq] at hp; simp at hp
  · rw [heq] at hp
    simp only [Prod.mk.injEq, Except.ok.injEq] at hp
    obtain ⟨⟨hu, _⟩, hst⟩ := hp
    subst hu
    subst hst
    refine ⟨by simp [pushUser], ?_, hr⟩
    exact (getExclusiveRandomId_spec _ _ _ hr).1
  · rw [heq] at hp; simp at hp
  · rw [heq] at hp; simp at hp
  · rw [heq] at hp
    simp only [Prod.mk.injEq, Except.ok.injEq] at hp
    obtain ⟨⟨hu, _⟩, hst⟩ := hp
    subst hu
    subst hst
    refine ⟨by simp [constructConn, pushUser], ?_, hr⟩
    exact (getExclusiveRandomId_spec _ _ _ hr).1

/-- Releasing the user a successful acquire just added always succeeds and
restores the per-chain user list to its pre-acquire content. -/
theorem disconnect_fresh (st : ConnectorState) (chainId : ChainId) (u : SocketUserId)
    (users₀ : List SocketUserId) (hu : st.socketUsers chainId = some (users₀ ++ [u]))
    (hnotin : u ∉ users₀) :
    (disconnectChainSocket st chainId u).1 = .ok ()
    ∧ (disconnectChainSocket st chainId u).2.socketUsers chainId = some users₀ := by
  have hm : u ∈ users₀ ++ [u] := by simp
  have he : (users₀ ++ [u]).erase u = users₀ := erase_append_last users₀ u hnotin
  cases users₀ with
  | cons v rest =>
    rw [disconnect_keep st chainId u ((v :: rest) ++ [u]) v rest hu hm (by exact he)]
    have he' : (v :: (rest ++ [u])).erase u = v :: rest := by exact he
    simp [he']
  | nil =>
    cases hc : st.socketConnections chainId with
    | none =>
      rw [disconnect_warn st chainId u ([] ++ [u]) hu hm (by simpa using he) hc]
      simp
    | some ws =>
      rw [disconnect_teardown st chainId u ([] ++ [u]) ws hu hm (by simpa using he) hc]
      simp

/-- The healthy-first reordering is a permutation of the input. -/
theorem sortedRpcs_perm (rpcs : List Rpc) : List.Perm (sortedRpcs rpcs) rpcs :=
  List.filter_append_perm _ rpcs

/-- The URL list passed to `WsProvider` is the `.url` image of the
healthy-first reordering. -/
theorem orderedRpcUrls_eq_map (rpcs : List Rpc) :
    orderedRpcUrls rpcs = (sortedRpcs rpcs).map (fun r => r.url) := by
  simp [orderedRpcUrls, sortedRpcs, healthyRpcs, unhealthyRpcs]

/-- The `WsProvider` URL list is empty exactly when the chain has no
candidate endpoints at all. -/
theorem orderedRpcUrls_nil_iff (rpcs : List Rpc) :
    orderedRpcUrls rpcs = [] ↔ rpcs = [] := by
  rw [orderedRpcUrls_eq_map]
  rw [List.map_eq_nil_iff]
  constructor
  · intro h
    have := (sortedRpcs_perm rpcs).length_eq
    rw [h] at this
    exact List.length_eq_zero.mp this.symm
  · intro h
    subst h
    rfl

/-- Positions below the healthy block length hold healthy endpoints. -/
theorem sortedRpcs_healthy_of_lt (rpcs : List Rpc) (i : Nat)
    (hi : i < (sortedRpcs rpcs).length)
    (hlt : i < (rpcs.filter (fun r => r.isHealthy)).length) :
    ((sortedRpcs rpcs).get ⟨i, hi⟩).isHealthy = true := by
  have hget : (sortedRpcs rpcs).get ⟨i, hi⟩ =
      (rpcs.filter (fun r => r.isHealthy)).get ⟨i, hlt⟩ := by
    simp [sortedRpcs, List.getElem_append_left, hlt]
  rw [hget]
  have hm : (rpcs.filter (fun r => r.isHealthy)).get ⟨i, hlt⟩ ∈
      rpcs.filter (fun r => r.isHealthy) := List.get_mem _ _ _
  exact (List.mem_filter.mp hm).2

/-- Positions at or beyond the healthy block length hold unhealthy
endpoints. -/
theorem sortedRpcs_unhealthy_of_ge (rpcs : List Rpc) (i : Nat)
    (hi : i < (sortedRpcs rpcs).length)
    (hge : (rpcs.filter (fun r => r.isHealthy)).length ≤ i) :
    ((sortedRpcs rpcs).get ⟨i, hi⟩).isHealthy = false := by
  have hi2 : i - (rpcs.filter (fun r => r.isHealthy)).length <
      (rpcs.filter (fun r => !r.isHealthy)).length := by
    have := hi
    rw [sortedRpcs, List.length_append] at this
    omega
  have hget : (sortedRpcs rpcs).get ⟨i, hi⟩ =
      (rpcs.filter (fun r => !r.isHealthy)).get
        ⟨i - (rpcs.filter (fun r => r.isHealthy)).length, hi2⟩ := by
    simp [sortedRpcs, List.getElem_append_right, hge]
  rw [hget]
  have hm : (rpcs.filter (fun r => !r.isHealthy)).get
      ⟨i - (rpcs.filter (fun r => r.isHealthy)).length, hi2⟩ ∈
      rpcs.filter (fun r => !r.isHealthy) := List.get_mem _ _ _
  have := (List.mem_filter.mp hm).2
  simpa using this

/-- The healthy elements of the reordered list are exactly the original
healthy elements, in the original order. -/
theorem sortedRpcs_filter_healthy (rpcs : List Rpc) :
    (sortedRpcs rpcs).filter (fun r => r.isHealthy) =
      rpcs.filter (fun r => r.isHealthy) := by
  simp only [sortedRpcs, List.filter_append, List.filter_filter]
  have h1 : (rpcs.filter fun a => a.isHealthy && a.isHealthy) =
      rpcs.filter fun r => r.isHealthy := by
    apply List.filter_congr
    intro r _
    simp [Bool.and_self]
  have h2 : (rpcs.filter fun a => a.isHealthy && !a.isHealthy) = [] := by
    have : ∀ r ∈ rpcs, ¬(r.isHealthy && !r.isHealthy) = true := by
      intro r _
      simp
    exact List.filter_eq_nil_iff.mpr this
  rw [h1, h2, List.append_nil]

/-- The unhealthy elements of the reordered list are exactly the original
unhealthy elements, in the original order. -/
theorem sortedRpcs_filter_unhealthy (rpcs : List Rpc) :
    (sortedRpcs rpcs).filter (fun r => !r.isHealthy) =
      rpcs.filter (fun r => !r.isHealthy) := by
  simp only [sortedRpcs, List.filter_append, List.filter_filter]
  have h1 : (rpcs.filter fun a => !a.isHealthy && a.isHealthy) = [] := by
    have : ∀ r ∈ rpcs, ¬(!r.isHealthy && r.isHealthy) = true := by
      intro r _
      cases hr : r.isHealthy <;> simp [hr]
    exact List.filter_eq_nil_iff.mpr this
  have h2 : (rpcs.filter fun a => !a.isHealthy && !a.isHealthy) =
      rpcs.filter fun r => !r.isHealthy := by
    apply List.filter_congr
    intro r _
    simp [Bool.and_self]
  rw [h1, h2, List.nil_append]

/-- The selector `getHealthyRpc` returns null exactly when every candidate probes
unhealthy. -/
theorem getHealthyRpc_none_iff (net : String → ProbeOutcome) (urls : List String)
    (chainId : Int) :
    getHealthyRpc net urls chainId = none ↔
      ∀ url ∈ urls, isHealthyRpc net url chainId = false := by
  induction urls with
  | nil => simp [getHealthyRpc]
  | cons v vs ih =>
    cases hv : isHealthyRpc net v chainId with
    | false => simp [getHealthyRpc, hv, ih]
    | true => simp [getHealthyRpc, hv]

/-- A URL returned by `getHealthyRpc` is the first candidate that probes
healthy: it occurs in the list, it is healthy, and every candidate strictly
before it is unhealthy. -/
theorem getHealthyRpc_first (net : String → ProbeOutcome) (urls : List String)
    (chainId : Int) (url : String) (h : getHealthyRpc net urls chainId = some url) :
    ∃ i, ∃ hi : i < urls.length, urls.get ⟨i, hi⟩ = url
      ∧ isHealthyRpc net url chainId = true
      ∧ ∀ j, ∀ hj : j < urls.length, j < i →
          isHealthyRpc net (urls.get ⟨j, hj⟩) chainId = false := by
  induction urls with
  | nil => simp [getHealthyRpc] at h
  | cons v vs ih =>
    cases hv : isHealthyRpc net v chainId with
    | true =>
      rw [getHealthyRpc, if_pos hv] at h
      cases h
      exact ⟨0, by simp, rfl, hv, fun j hj hj0 => absurd hj0 (by omega)⟩
    | false =>
      rw [getHealthyRpc, if_neg (by simp [hv])] at h
      obtain ⟨i, hi, hget, hh, hprev⟩ := ih h
      refine ⟨i + 1, by simpa using Nat.succ_lt_succ hi, hget, hh, ?_⟩
      intro j hj hjlt
      cases j with
      | zero => exact hv
      | succ j' =>
        have hj' : j' < vs.length := by simpa using hj
        exact hprev j' hj' (by omega)

/-- C10: `isUnhealthyRpcError` returns "not unhealthy" (`false`) for every
error whose `reason` field is exactly the allow-listed string
"processing response error", and "unhealthy" (`true`) for every other error
object. -/
theorem c10_classify_error (err : RpcError) :
    (isUnhealthyRpcError err = false ↔ err.reason = some "processing response error")
    ∧ (isUnhealthyRpcError err = true ↔ err.reason ≠ some "processing response error") := by
  obtain ⟨reason⟩ := err
  cases reason with
  | none => simp [isUnhealthyRpcError, jsIncludes]
  | some s =>
    by_cases hs : s = "processing response error" <;>
      simp [isUnhealthyRpcError, jsIncludes, hs]

theorem c10_witness :
    isUnhealthyRpcError ⟨some "processing response error"⟩ = false
    ∧ isUnhealthyRpcError ⟨some "execution reverted"⟩ = true
    ∧ isUnhealthyRpcError ⟨none⟩ = true :=
  ⟨(c10_classify_error ⟨some "processing response error"⟩).1.mpr rfl,
   (c10_classify_error ⟨some "execution reverted"⟩).2.mpr (by decide),
   (c10_classify_error ⟨none⟩).2.mpr (by decide)⟩

/-- C9: `getHealthyRpc` tries the candidate URLs strictly in order and
returns the first that probes healthy, where `isHealthyRpc` reports healthy
exactly when the endpoint answers `eth_chainId` in time with the expected
chain id (exceptions yield unhealthy without propagating), and returns none
when every candidate fails. -/
theorem c9_select_healthy (net : String → ProbeOutcome) (urls : List String)
    (chainId : Int) :
    (∀ url, isHealthyRpc net url chainId = true ↔ net url = .reply (some chainId))
    ∧ (getHealthyRpc net urls chainId = none ↔
        ∀ url ∈ urls, isHealthyRpc net url chainId = false)
    ∧ ∀ url, getHealthyRpc net urls chainId = some url →
        ∃ i, ∃ hi : i < urls.length, urls.get ⟨i, hi⟩ = url
          ∧ isHealthyRpc net url chainId = true
          ∧ ∀ j, ∀ hj : j < urls.length, j < i →
              isHealthyRpc net (urls.get ⟨j, hj⟩) chainId = false := by
  refine ⟨?_, getHealthyRpc_none_iff net urls chainId, getHealthyRpc_first net urls chainId⟩
  intro url
  cases hn : net url with
  | reply parsed => simp [isHealthyRpc, hn]
  | failure => simp [isHealthyRpc, hn]

theorem c9_witness :
    getHealthyRpc (fun url => if url = "u2" then .reply (some 5) else .failure)
        ["u1", "u2", "u3"] 5 = some "u2"
    ∧ (∃ i, ∃ hi : i < (["u1", "u2", "u3"] : List String).length,
        (["u1", "u2", "u3"] : List String).get ⟨i, hi⟩ = "u2"
        ∧ isHealthyRpc (fun url => if url = "u2" then .reply (some 5) else .failure) "u2" 5 = true
        ∧ ∀ j, ∀ hj : j < (["u1", "u2", "u3"] : List String).length, j < i →
            isHealthyRpc (fun url => if url = "u2" then .reply (some 5) else .failure)
              ((["u1", "u2", "u3"] : List String).get ⟨j, hj⟩) 5 = false)
    ∧ getHealthyRpc (fun _ => .failure) ["u1", "u2", "u3"] 5 = none :=
  ⟨rfl,
   (c9_select_healthy (fun url => if url = "u2" then .reply (some 5) else .failure)
      ["u1", "u2", "u3"] 5).2.2 "u2" rfl,
   (c9_select_healthy (fun _ => .failure) ["u1", "u2", "u3"] 5).2.1.mpr
      (by intro url _; rfl)⟩

/-- C8: every handle returned by acquire is an integer below `10^8` that is
distinct from every handle active for that chain at allocation time: the
generate-and-check loop never returns a member of its exclude list, so the
pool never reuses a live handle value for the same chain. -/
theorem c8_fresh_handle :
    (∀ ks exclude id, (∀ k ∈ ks, k < 2 ^ 53) →
      getExclusiveRandomId ks exclude = some id → id < 10 ^ 8 ∧ id ∉ exclude)
    ∧ ∀ getChain rand wsCtorFails st chainId u ws,
        (∀ k ∈ rand, k < 2 ^ 53) →
        (connectChainSocket getChain rand wsCtorFails st chainId).1 = .ok (u, ws) →
        u < 10 ^ 8 ∧ u ∉ (st.socketUsers chainId).getD [] := by
  have main : ∀ ks exclude id, (∀ k ∈ ks, k < 2 ^ 53) →
      getExclusiveRandomId ks exclude = some id → id < 10 ^ 8 ∧ id ∉ exclude := by
    intro ks exclude id hks h
    obtain ⟨hnotin, k, hk, hid⟩ := getExclusiveRandomId_spec ks exclude id h
    exact ⟨hid ▸ getRandomId_lt k (hks k hk), hnotin⟩
  refine ⟨main, ?_⟩
  intro getChain rand wsCtorFails st chainId u ws hks h
  rcases connectChainSocket_shape getChain rand wsCtorFails st chainId with
    ⟨_, heq⟩ | ⟨chain, _, _, heq⟩ | ⟨chain, u', ws', _, hr, _, heq⟩ |
    ⟨chain, u', _, _, _, _, heq⟩ | ⟨chain, u', _, _, _, _, _, heq⟩ |
    ⟨chain, u', hg, hr, hc, he, hcf, heq⟩
  · rw [heq] at h; simp at h
  · rw [heq] at h; simp at h
  · rw [heq] at h
    simp only [Except.ok.injEq, Prod.mk.injEq] at h
    obtain ⟨hu, _⟩ := h
    subst hu
    exact main rand _ _ hks hr
  · rw [heq] at h; simp at h
  · rw [heq] at h; simp at h
  · rw [heq] at h
    simp only [Except.ok.injEq, Prod.mk.injEq] at h
    obtain ⟨hu, _⟩ := h
    subst hu
    exact main rand _ _ hks hr

theorem c8_witness :
    (∀ k ∈ [(0 : Nat), 2 ^ 52], k < 2 ^ 53)
    ∧ getExclusiveRandomId [0, 2 ^ 52] [0] = some 50000000
    ∧ 50000000 < 10 ^ 8 ∧ 50000000 ∉ [(0 : Nat)] := by
  have h := c8_fresh_handle.1 [0, 2 ^ 52] [0] 50000000 (by decide) (by rfl)
  exact ⟨by decide, by rfl, h.1, h.2⟩

/-- C4: the endpoint list passed to the transport constructor at connect
time places every healthy endpoint before every unhealthy one, preserves
each per-group relative input order, and is a permutation of the input. -/
theorem c4_healthy_first (rpcs : List Rpc) :
    List.Perm (sortedRpcs rpcs) rpcs
    ∧ orderedRpcUrls rpcs = (sortedRpcs rpcs).map (fun r => r.url)
    ∧ List.Perm (orderedRpcUrls rpcs) (rpcs.map (fun r => r.url))
    ∧ (∀ i j, ∀ hi : i < (sortedRpcs rpcs).length, ∀ hj : j < (sortedRpcs rpcs).length,
        i ≤ j → ((sortedRpcs rpcs).get ⟨j, hj⟩).isHealthy = true →
        ((sortedRpcs rpcs).get ⟨i, hi⟩).isHealthy = true)
    ∧ (sortedRpcs rpcs).filter (fun r => r.isHealthy) = rpcs.filter (fun r => r.isHealthy)
    ∧ (sortedRpcs rpcs).filter (fun r => !r.isHealthy) = rpcs.filter (fun r => !r.isHealthy)
    ∧ ∀ getChain rand st chainId chain st' u ws,
        getChain chainId = some chain → chain.rpcs = rpcs →
        st.socketConnections chainId = none →
        connectChainSocket getChain rand false st chainId = (.ok (u, ws), st') →
        st'.wsCtorCalls = st.wsCtorCalls ++ [(chainId, orderedRpcUrls rpcs)] := by
  refine ⟨sortedRpcs_perm rpcs, orderedRpcUrls_eq_map rpcs, ?_, ?_,
    sortedRpcs_filter_healthy rpcs, sortedRpcs_filter_unhealthy rpcs, ?_⟩
  · rw [orderedRpcUrls_eq_map]
    exact (sortedRpcs_perm rpcs).map _
  · intro i j hi hj hij hhj
    have hjlt : j < (rpcs.filter (fun r => r.isHealthy)).length := by
      by_contra hge
      push_neg at hge
      have := sortedRpcs_unhealthy_of_ge rpcs j hj hge
      rw [hhj] at this
      cases this
    exact sortedRpcs_healthy_of_lt rpcs i hi (lt_of_le_of_lt hij hjlt)
  · intro getChain rand st chainId chain st' u ws hg hrpcs hcnone hconn
    rcases connectChainSocket_shape getChain rand false st chainId with
      ⟨hg', heq⟩ | ⟨chain', _, _, heq⟩ | ⟨chain', u', ws', _, _, hc', heq⟩ |
      ⟨chain', u', _, _, _, _, heq⟩ | ⟨chain', u', _, _, _, _, hcf, heq⟩ |
      ⟨chain', u', hg', hr', hc', he', hcf', heq⟩
    · rw [hg] at hg'; cases hg'
    · rw [heq] at hconn; simp at hconn
    · rw [hcnone] at hc'; cases hc'
    · rw [heq] at hconn; simp at hconn
    · cases hcf
    · rw [hg] at hg'
      cases hg'
      rw [heq] at hconn
      simp only [Prod.mk.injEq, Except.ok.injEq] at hconn
      obtain ⟨_, hst⟩ := hconn
      subst hst
      subst hrpcs
      simp [constructConn, pushUser]

theorem c4_witness :
    orderedRpcUrls [⟨"A", false⟩, ⟨"B", true⟩, ⟨"C", true⟩, ⟨"D", false⟩] =
      ["B", "C", "A", "D"]
    ∧ List.Perm (orderedRpcUrls [⟨"A", false⟩, ⟨"B", true⟩, ⟨"C", true⟩, ⟨"D", false⟩])
        (([⟨"A", false⟩, ⟨"B", true⟩, ⟨"C", true⟩, ⟨"D", false⟩] : List Rpc).map
          (fun r => r.url))
    ∧ (connectChainSocket dirHealthy [0] false initState "polkadot").2.wsCtorCalls =
        [("polkadot", orderedRpcUrls [⟨"wss://rpc.example", true⟩])] := by
  refine ⟨by decide, (c4_healthy_first _).2.2.1, ?_⟩
  have h := (c4_healthy_first [⟨"wss://rpc.example", true⟩]).2.2.2.2.2.2
    dirHealthy [0] initState "polkadot" ⟨[⟨"wss://rpc.example", true⟩]⟩
    (connectChainSocket dirHealthy [0] false initState "polkadot").2 0 0
    (by rfl) rfl (by rfl) (by rfl)
  simpa [initState] using h

/-- C1: over every sequence of interleaved acquire/release (and keep-alive)
operations the pool holds at most one live transport per chain, and an
acquire that finds an existing connection entry returns that existing
transport with the fresh handle and constructs no new transport. -/
theorem c1_one_live_transport (getChain : ChainId → Option Chain) :
    (∀ ops chainId, liveTransportCount (runOps getChain ops initState) chainId ≤ 1)
    ∧ ∀ st chainId ws rand wsCtorFails, st.socketConnections chainId = some ws →
        (connectChainSocket getChain rand wsCtorFails st chainId).2.liveTransports =
          st.liveTransports
        ∧ (connectChainSocket getChain rand wsCtorFails st chainId).2.nextTransportId =
            st.nextTransportId
        ∧ (connectChainSocket getChain rand wsCtorFails st chainId).2.wsCtorCalls =
            st.wsCtorCalls
        ∧ ∀ u ws', (connectChainSocket getChain rand wsCtorFails st chainId).1 = .ok (u, ws') →
            ws' = ws := by
  constructor
  · intro ops chainId
    have hinv := transportInv_runOps getChain ops initState transportInv_init chainId
    unfold liveTransportCount
    cases hc : (runOps getChain ops initState).socketConnections chainId with
    | none => rw [hc] at hinv; simp [hinv]
    | some ws => rw [hc] at hinv; simp [hinv]
  · intro st chainId ws rand wsCtorFails hc
    rcases connectChainSocket_shape getChain rand wsCtorFails st chainId with
      ⟨_, heq⟩ | ⟨chain, _, _, heq⟩ | ⟨chain, u', ws', _, _, hc', heq⟩ |
      ⟨chain, u', _, _, hc', _, heq⟩ | ⟨chain, u', _, _, hc', _, _, heq⟩ |
      ⟨chain, u', _, _, hc', _, _, heq⟩
    · rw [heq]
      exact ⟨rfl, rfl, rfl, by simp⟩
    · rw [heq]
      refine ⟨rfl, rfl, rfl, ?_⟩
      simp [initUsers]
    · rw [heq]
      refine ⟨rfl, rfl, rfl, ?_⟩
      intro u ws'' h
      simp only [Except.ok.injEq, Prod.mk.injEq] at h
      rw [hc] at hc'
      cases hc'
      exact h.2.symm
    · rw [hc] at hc'; cases hc'
    · rw [hc] at hc'; cases hc'
    · rw [hc] at hc'; cases hc'

theorem c1_witness :
    liveTransportCount
      (runOps dirHealthy
        [.acquire "polkadot" [0] false, .acquire "polkadot" [1] false,
         .release "polkadot" 0, .acquire "polkadot" [2] false]
        initState) "polkadot" ≤ 1
    ∧ (connectChainSocket dirHealthy [1] false
        (connectChainSocket dirHealthy [0] false initState "polkadot").2
        "polkadot").2.liveTransports =
      (connectChainSocket dirHealthy [0] false initState "polkadot").2.liveTransports :=
  ⟨(c1_one_live_transport dirHealthy).1 _ "polkadot",
   ((c1_one_live_transport dirHealthy).2
      (connectChainSocket dirHealthy [0] false initState "polkadot").2
      "polkadot" 0 [1] false (by rfl)).1⟩

/-- C3: a release disconnects the transport of the chain exactly when it empties
the per-chain active-handle set — in that case the transport is disconnected,
the keep-alive timer cleared and removed, and the entry deleted — while a
release that leaves the set non-empty changes only the user list. -/
theorem c3_release_teardown (st : ConnectorState) (chainId : ChainId)
    (socketUserId : SocketUserId) (l : List SocketUserId) (ws : Nat)
    (hu : st.socketUsers chainId = some l) (hmem : socketUserId ∈ l)
    (hconn : st.socketConnections chainId = some ws) :
    (disconnectChainSocket st chainId socketUserId).1 = .ok ()
    ∧ (l.erase socketUserId ≠ [] →
        (disconnectChainSocket st chainId socketUserId).2 =
          { st with
            socketUsers := setMap st.socketUsers chainId (some (l.erase socketUserId)) })
    ∧ (l.erase socketUserId = [] →
        (disconnectChainSocket st chainId socketUserId).2.socketConnections chainId = none
        ∧ (disconnectChainSocket st chainId socketUserId).2.liveTransports =
            st.liveTransports.erase (chainId, ws)
        ∧ (disconnectChainSocket st chainId socketUserId).2.socketKeepAliveIntervals chainId =
            none
        ∧ (disconnectChainSocket st chainId socketUserId).2.liveTimers =
            (match st.socketKeepAliveIntervals chainId with
             | some t => st.liveTimers.erase t
             | none => st.liveTimers)
        ∧ (disconnectChainSocket st chainId socketUserId).2.socketUsers chainId = some []) := by
  cases he : l.erase socketUserId with
  | nil =>
    rw [disconnect_teardown st chainId socketUserId l ws hu hmem he hconn]
    refine ⟨rfl, fun hne => absurd rfl hne, fun _ => ⟨?_, rfl, ?_, rfl, ?_⟩⟩ <;> simp
  | cons v rest =>
    rw [disconnect_keep st chainId socketUserId l v rest hu hmem he]
    refine ⟨rfl, fun _ => ?_, fun hnil => by simp at hnil⟩
    simp [he]

theorem c3_witness :
    ((connectChainSocket dirHealthy [0] false initState "polkadot").2.socketUsers
      "polkadot" = some [0])
    ∧ (disconnectChainSocket
        (connectChainSocket dirHealthy [0] false initState "polkadot").2
        "polkadot" 0).1 = .ok ()
    ∧ (disconnectChainSocket
        (connectChainSocket dirHealthy [0] false initState "polkadot").2
        "polkadot" 0).2.socketConnections "polkadot" = none :=
  ⟨rfl,
   (c3_release_teardown
      (connectChainSocket dirHealthy [0] false initState "polkadot").2
      "polkadot" 0 [0] 0 (by rfl) (by decide) (by rfl)).1,
   ((c3_release_teardown
      (connectChainSocket dirHealthy [0] false initState "polkadot").2
      "polkadot" 0 [0] 0 (by rfl) (by decide) (by rfl)).2.2 (by decide)).1⟩

/-- C2: every multiplexer operation releases each handle it acquired
exactly once on every exit path: `send` releases after a successful
transport call and before rethrowing a failed one; `subscribe` releases and
rethrows when the subscribe call fails (before any unsubscribe function is
returned), and on success the handle is released exactly once, by invoking
the returned unsubscribe function. -/
theorem c2_release_once {α : Type} (getChain : ChainId → Option Chain)
    (rand : List Nat) (wsCtorFails : Bool) (st : ConnectorState) (chainId : ChainId)
    (sendResult : Except Unit α) (subscribeResult : Except Unit Nat) :
    (∀ e st', connectChainSocket getChain rand wsCtorFails st chainId = (.error e, st') →
      (sendModel getChain rand wsCtorFails st chainId sendResult).2.2 = []
      ∧ (subscribeModel getChain rand wsCtorFails st chainId subscribeResult).2.2 = [])
    ∧ ∀ u ws st₁,
        connectChainSocket getChain rand wsCtorFails st chainId = (.ok (u, ws), st₁) →
        ((sendModel getChain rand wsCtorFails st chainId sendResult).2.2 =
            [.released chainId u]
          ∧ (sendModel getChain rand wsCtorFails st chainId sendResult).2.1.socketUsers
              chainId = some ((st.socketUsers chainId).getD [])
          ∧ (∀ r, sendResult = .ok r →
              (sendModel getChain rand wsCtorFails st chainId sendResult).1 = .ok r)
          ∧ (sendResult = .error () →
              (sendModel getChain rand wsCtorFails st chainId sendResult).1 =
                .error .transportSendFailure))
        ∧ ((subscribeResult = .error () →
              (subscribeModel getChain rand wsCtorFails st chainId subscribeResult).2.2 =
                [.released chainId u]
              ∧ (subscribeModel getChain rand wsCtorFails st chainId subscribeResult).1 =
                  .error .transportSubscribeFailure
              ∧ (subscribeModel getChain rand wsCtorFails st chainId
                  subscribeResult).2.1.socketUsers chainId =
                  some ((st.socketUsers chainId).getD []))
          ∧ ∀ sid, subscribeResult = .ok sid →
              (subscribeModel getChain rand wsCtorFails st chainId subscribeResult).2.2 = []
              ∧ (subscribeModel getChain rand wsCtorFails st chainId subscribeResult).1 =
                  .ok (u, sid)
              ∧ (subscribeModel getChain rand wsCtorFails st chainId subscribeResult).2.1 =
                  st₁)
        ∧ ((unsubscribeModel st₁ chainId u (.ok ())).2.2 = [.released chainId u]
          ∧ (unsubscribeModel st₁ chainId u (.ok ())).1 = .ok ()
          ∧ (unsubscribeModel st₁ chainId u (.ok ())).2.1.socketUsers chainId =
              some ((st.socketUsers chainId).getD [])) := by
  constructor
  · intro e st' heq
    exact ⟨by simp [sendModel, heq], by simp [subscribeModel, heq]⟩
  · intro u ws st₁ heq
    obtain ⟨hu1, hu2, _⟩ :=
      connect_ok_users getChain rand wsCtorFails st chainId u ws st₁ heq
    obtain ⟨hd1, hd2⟩ := disconnect_fresh st₁ chainId u _ hu1 hu2
    rcases hds : disconnectChainSocket st₁ chainId u with ⟨r, st₂⟩
    rw [hds] at hd1 hd2
    simp only at hd1 hd2
    subst hd1
    refine ⟨⟨?_, ?_, ?_, ?_⟩, ⟨?_, ?_⟩, ?_, ?_, ?_⟩
    · cases sendResult <;> simp [sendModel, heq, hds]
    · cases sendResult <;> simp [sendModel, heq, hds, hd2]
    · intro r hr
      subst hr
      simp [sendModel, heq, hds]
    · intro hr
      subst hr
      simp [sendModel, heq, hds]
    · intro hr
      subst hr
      exact ⟨by simp [subscribeModel, heq, hds],
        by simp [subscribeModel, heq, hds],
        by simp [subscribeModel, heq, hds, hd2]⟩
    · intro sid hr
      subst hr
      exact ⟨by simp [subscribeModel, heq], by simp [subscribeModel, heq],
        by simp [subscribeModel, heq]⟩
    · simp [unsubscribeModel, hds]
    · simp [unsubscribeModel, hds]
    · simp [unsubscribeModel, hds, hd2]

theorem c2_witness :
    (sendModel dirHealthy [0] false initState "polkadot"
      (.ok (42 : Nat))).2.2 = [.released "polkadot" 0]
    ∧ (sendModel dirHealthy [0] false initState "polkadot"
        (.error () : Except Unit Nat)).2.2 = [.released "polkadot" 0]
    ∧ (subscribeModel dirHealthy [0] false initState "polkadot" (.ok 7)).2.2 = []
    ∧ (unsubscribeModel
        (connectChainSocket dirHealthy [0] false initState "polkadot").2
        "polkadot" 0 (.ok ())).2.2 = [.released "polkadot" 0] :=
  ⟨((c2_release_once dirHealthy [0] false initState "polkadot"
      (.ok (42 : Nat)) (.ok 7)).2 0 0
      (connectChainSocket dirHealthy [0] false initState "polkadot").2
      (by rfl)).1.1,
   ((c2_release_once dirHealthy [0] false initState "polkadot"
      (.error () : Except Unit Nat) (.ok 7)).2 0 0
      (connectChainSocket dirHealthy [0] false initState "polkadot").2
      (by rfl)).1.1,
   (((c2_release_once dirHealthy [0] false initState "polkadot"
      (.ok (42 : Nat)) (.ok 7)).2 0 0
      (connectChainSocket dirHealthy [0] false initState "polkadot").2
      (by rfl)).2.1.2 7 rfl).1,
   ((c2_release_once dirHealthy [0] false initState "polkadot"
      (.ok (42 : Nat)) (.ok 7)).2 0 0
      (connectChainSocket dirHealthy [0] false initState "polkadot").2
      (by rfl)).2.2.1⟩

/-- C5 counterexample: a chain whose every candidate endpoint is flagged
unhealthy (but whose list is non-empty) does NOT fail with
`NoHealthyEndpoints` — the fresh acquire succeeds, refuting the claimed
reading that the failure occurs when every candidate endpoint is marked
unhealthy. -/
theorem c5_counterexample :
    (∀ r ∈ (⟨[⟨"wss://rpc.example", false⟩]⟩ : Chain).rpcs, r.isHealthy = false)
    ∧ dirAllUnhealthy "polkadot" = some ⟨[⟨"wss://rpc.example", false⟩]⟩
    ∧ initState.socketConnections "polkadot" = none
    ∧ (connectChainSocket dirAllUnhealthy [0] false initState "polkadot").1 =
        .ok (0, 0) := by
  exact ⟨by decide, by rfl, rfl, by rfl⟩

/-- C5 (amended): acquire fails with `ChainNotFound` exactly when the
directory returns none; otherwise, with a successful handle draw and no
existing entry, it fails with `NoHealthyEndpoints` exactly when the per-chain
candidate list itself is empty (a non-empty list of all-unhealthy endpoints
does not fail); with a non-empty list and a non-throwing constructor, or
with an existing entry, it returns a handle and connection without error. -/
theorem c5_acquire_errors (getChain : ChainId → Option Chain) (rand : List Nat)
    (st : ConnectorState) (chainId : ChainId) :
    (∀ wsCtorFails,
      ((connectChainSocket getChain rand wsCtorFails st chainId).1 =
          .error .chainNotFound ↔ getChain chainId = none))
    ∧ ∀ chain u, getChain chainId = some chain →
        getExclusiveRandomId rand ((st.socketUsers chainId).getD []) = some u →
        ((st.socketConnections chainId = none →
          (∀ wsCtorFails,
            ((connectChainSocket getChain rand wsCtorFails st chainId).1 =
                .error .noHealthyEndpoints ↔ chain.rpcs = []))
          ∧ (chain.rpcs ≠ [] →
              (connectChainSocket getChain rand false st chainId).1 =
                .ok (u, st.nextTransportId)))
        ∧ ∀ ws, st.socketConnections chainId = some ws →
            ∀ wsCtorFails,
              (connectChainSocket getChain rand wsCtorFails st chainId).1 = .ok (u, ws)) := by
  constructor
  · intro wsCtorFails
    rcases connectChainSocket_shape getChain rand wsCtorFails st chainId with
      ⟨hg, heq⟩ | ⟨chain, hg, _, heq⟩ | ⟨chain, u', ws', hg, _, _, heq⟩ |
      ⟨chain, u', hg, _, _, _, heq⟩ | ⟨chain, u', hg, _, _, _, _, heq⟩ |
      ⟨chain, u', hg, _, _, _, _, heq⟩ <;> rw [heq] <;> simp [hg]
  · intro chain u hg hr
    refine ⟨fun hcnone => ⟨?_, ?_⟩, ?_⟩
    · intro wsCtorFails
      rcases connectChainSocket_shape getChain rand wsCtorFails st chainId with
        ⟨hg', heq⟩ | ⟨chain', hg', hr', heq⟩ | ⟨chain', u', ws', hg', hr', hc', heq⟩ |
        ⟨chain', u', hg', hr', hc', he', heq⟩ | ⟨chain', u', hg', hr', hc', he', _, heq⟩ |
        ⟨chain', u', hg', hr', hc', he', _, heq⟩
      · rw [hg] at hg'; cases hg'
      · rw [hr] at hr'; cases hr'
      · rw [hcnone] at hc'; cases hc'
      · rw [hg] at hg'
        cases hg'
        rw [heq]
        simp [(orderedRpcUrls_nil_iff chain.rpcs).mp he']
      · rw [hg] at hg'
        cases hg'
        rw [heq]
        have : chain.rpcs ≠ [] := fun hn => he' (by rw [hn]; rfl)
        simp [this]
      · rw [hg] at hg'
        cases hg'
        rw [heq]
        have : chain.rpcs ≠ [] := fun hn => he' (by rw [hn]; rfl)
        simp [this]
    · intro hrpcs
      rcases connectChainSocket_shape getChain rand false st chainId with
        ⟨hg', heq⟩ | ⟨chain', hg', hr', heq⟩ | ⟨chain', u', ws', hg', hr', hc', heq⟩ |
        ⟨chain', u', hg', hr', hc', he', heq⟩ | ⟨chain', u', hg', hr', hc', he', hcf', heq⟩ |
        ⟨chain', u', hg', hr', hc', he', _, heq⟩
      · rw [hg] at hg'; cases hg'
      · rw [hr] at hr'; cases hr'
      · rw [hcnone] at hc'; cases hc'
      · rw [hg] at hg'
        cases hg'
        exact absurd ((orderedRpcUrls_nil_iff chain.rpcs).mp he') hrpcs
      · cases hcf'
      · rw [hr] at hr'
        cases hr'
        rw [heq]
    · intro ws hcsome wsCtorFails
      rcases connectChainSocket_shape getChain rand wsCtorFails st chainId with
        ⟨hg', heq⟩ | ⟨chain', hg', hr', heq⟩ | ⟨chain', u', ws', hg', hr', hc', heq⟩ |
        ⟨chain', u', hg', hr', hc', he', heq⟩ | ⟨chain', u', hg', hr', hc', he', _, heq⟩ |
        ⟨chain', u', hg', hr', hc', he', _, heq⟩
      · rw [hg] at hg'; cases hg'
      · rw [hr] at hr'; cases hr'
      · rw [hr] at hr'
        cases hr'
        rw [hcsome] at hc'
        cases hc'
        rw [heq]
      · rw [hcsome] at hc'; cases hc'
      · rw [hcsome] at hc'; cases hc'
      · rw [hcsome] at hc'; cases hc'

theorem c5_witness :
    ((connectChainSocket dirHealthy [0] false initState "missing").1 =
        .error .chainNotFound)
    ∧ ((connectChainSocket dirNoRpcs [0] false initState "polkadot").1 =
        .error .noHealthyEndpoints)
    ∧ ((connectChainSocket dirHealthy [0] false initState "polkadot").1 = .ok (0, 0)) :=
  ⟨((c5_acquire_errors dirHealthy [0] initState "missing").1 false).mpr (by rfl),
   (((c5_acquire_errors dirNoRpcs [0] initState "polkadot").2 ⟨[]⟩ 0 (by rfl)
      (by rfl)).1 (by rfl)).1 false |>.mpr rfl,
   (((c5_acquire_errors dirHealthy [0] initState "polkadot").2
      ⟨[⟨"wss://rpc.example", true⟩]⟩ 0 (by rfl) (by rfl)).1 (by rfl)).2
      (by decide)⟩

/-- C6 counterexample: releasing an already-released handle raises the
"user not in list" consistency error, and releasing on a chain whose user
map was never initialised raises the TypeError — refuting "never raises an
error to the caller". -/
theorem c6_counterexample :
    (disconnectChainSocket
        (runOps dirHealthy [.acquire "polkadot" [0] false, .release "polkadot" 0]
          initState)
        "polkadot" 0).1 = .error .userNotInList
    ∧ (disconnectChainSocket initState "polkadot" 0).1 = .error .noUsersEntry := by
  exact ⟨by rfl, rfl⟩

/-- C6 (amended): releasing a handle that is not in the per-chain user list
(a double release), or releasing on a chain whose user map was never
initialised, throws a consistency error and leaves the pool state
unchanged; only a release that removes a present handle while the
connection is already gone is the benign logged-warning no-op. -/
theorem c6_double_release (st : ConnectorState) (chainId : ChainId)
    (socketUserId : SocketUserId) :
    (st.socketUsers chainId = none →
      disconnectChainSocket st chainId socketUserId = (.error .noUsersEntry, st))
    ∧ (∀ l, st.socketUsers chainId = some l → socketUserId ∉ l →
        disconnectChainSocket st chainId socketUserId = (.error .userNotInList, st))
    ∧ ∀ l, st.socketUsers chainId = some l → socketUserId ∈ l →
        l.erase socketUserId = [] → st.socketConnections chainId = none →
        disconnectChainSocket st chainId socketUserId =
          (.ok (), { st with socketUsers := setMap st.socketUsers chainId (some []) }) := by
  refine ⟨fun hu => disconnect_noUsersEntry st chainId socketUserId hu,
    fun l hu hm => disconnect_userNotInList st chainId socketUserId l hu hm,
    fun l hu hm he hc => ?_⟩
  rw [disconnect_warn st chainId socketUserId l hu hm he hc]

theorem c6_witness :
    disconnectChainSocket initState "polkadot" 0 = (.error .noUsersEntry, initState)
    ∧ disconnectChainSocket
        (runOps dirHealthy [.acquire "polkadot" [0] false, .release "polkadot" 0]
          initState)
        "polkadot" 5 =
        (.error .userNotInList,
          runOps dirHealthy [.acquire "polkadot" [0] false, .release "polkadot" 0]
            initState) :=
  ⟨(c6_double_release initState "polkadot" 0).1 rfl,
   (c6_double_release
      (runOps dirHealthy [.acquire "polkadot" [0] false, .release "polkadot" 0] initState)
      "polkadot" 5).2.1 [] (by rfl) (by decide)⟩

/-- C7 counterexample: an acquire that fails with `NoHealthyEndpoints`
leaves the freshly allocated handle in the per-chain user list even though no
transport exists — refuting "no per-chain state remains … no allocated
handle". -/
theorem c7_counterexample :
    (connectChainSocket dirNoRpcs [0] false initState "polkadot").1 =
      .error .noHealthyEndpoints
    ∧ (connectChainSocket dirNoRpcs [0] false initState "polkadot").2.socketConnections
        "polkadot" = none
    ∧ (connectChainSocket dirNoRpcs [0] false initState "polkadot").2.socketUsers
        "polkadot" = some [0] := by
  exact ⟨by rfl, by rfl, by rfl⟩

/-- C7 (amended): when a fresh acquire fails while opening a transport
(empty endpoint list or throwing constructor) the error propagates and no
transport, keep-alive or constructor state remains — but the freshly
allocated handle is left in the per-chain user list, so a non-empty handle
set does not imply a present transport after a failed acquire. -/
theorem c7_failed_acquire (getChain : ChainId → Option Chain) (rand : List Nat)
    (wsCtorFails : Bool) (st : ConnectorState) (chainId : ChainId) (chain : Chain)
    (u : SocketUserId) (hg : getChain chainId = some chain)
    (hr : getExclusiveRandomId rand ((st.socketUsers chainId).getD []) = some u)
    (hc : st.socketConnections chainId = none)
    (hfail : chain.rpcs = [] ∨ wsCtorFails = true) :
    ((connectChainSocket getChain rand wsCtorFails st chainId).1 =
        .error .noHealthyEndpoints
      ∨ (connectChainSocket getChain rand wsCtorFails st chainId).1 =
          .error .transportCtorFailure)
    ∧ (connectChainSocket getChain rand wsCtorFails st chainId).2.socketConnections =
        st.socketConnections
    ∧ (connectChainSocket getChain rand wsCtorFails st chainId).2.socketKeepAliveIntervals =
        st.socketKeepAliveIntervals
    ∧ (connectChainSocket getChain rand wsCtorFails st chainId).2.liveTransports =
        st.liveTransports
    ∧ (connectChainSocket getChain rand wsCtorFails st chainId).2.liveTimers =
        st.liveTimers
    ∧ (connectChainSocket getChain rand wsCtorFails st chainId).2.nextTransportId =
        st.nextTransportId
    ∧ (connectChainSocket getChain rand wsCtorFails st chainId).2.wsCtorCalls =
        st.wsCtorCalls
    ∧ (connectChainSocket getChain rand wsCtorFails st chainId).2.socketUsers chainId =
        some ((st.socketUsers chainId).getD [] ++ [u]) := by
  rcases connectChainSocket_shape getChain rand wsCtorFails st chainId with
    ⟨hg', heq⟩ | ⟨chain', hg', hr', heq⟩ | ⟨chain', u', ws', hg', hr', hc', heq⟩ |
    ⟨chain', u', hg', hr', hc', he', heq⟩ | ⟨chain', u', hg', hr', hc', he', _, heq⟩ |
    ⟨chain', u', hg', hr', hc', he', hcf', heq⟩
  · rw [hg] at hg'; cases hg'
  · rw [hr] at hr'; cases hr'
  · rw [hc] at hc'; cases hc'
  · rw [hr] at hr'
    cases hr'
    rw [heq]
    exact ⟨Or.inl rfl, rfl, rfl, rfl, rfl, rfl, rfl, by simp [pushUser]⟩
  · rw [hr] at hr'
    cases hr'
    rw [heq]
    exact ⟨Or.inr rfl, rfl, rfl, rfl, rfl, rfl, rfl, by simp [pushUser]⟩
  · exfalso
    rw [hg] at hg'
    cases hg'
    rcases hfail with hnil | hcf
    · exact he' ((orderedRpcUrls_nil_iff chain.rpcs).mpr hnil)
    · rw [hcf] at hcf'; cases hcf'

theorem c7_witness :
    ((connectChainSocket dirNoRpcs [0] false initState "polkadot").1 =
        .error .noHealthyEndpoints
      ∨ (connectChainSocket dirNoRpcs [0] false initState "polkadot").1 =
          .error .transportCtorFailure)
    ∧ (connectChainSocket dirNoRpcs [0] false initState "polkadot").2.socketUsers
        "polkadot" = some [0] := by
  have h := c7_failed_acquire dirNoRpcs [0] false initState "polkadot" ⟨[]⟩ 0
    (by rfl) (by rfl) rfl (Or.inl rfl)
  exact ⟨h.1, by simpa [initState] using h.2.2.2.2.2.2.2⟩
